import Mathlib

/-!
Verification of the sahabat-quran orchestration core: a shallow embedding of
the Quran data client (validation, retry/backoff, error classification), the
tool executor, the chat turn state machine with clear-cancellation, and the
proxy rate limiter, together with theorems about their behaviour.

Sources embedded (TypeScript):
- `src/utils/errorHandler` (unnamed/part_007): ErrorType, AppError, handleError,
  shouldRetry, createTimeoutPromise
- `src/services/quranService` (unnamed/part_000, lines 243-367): fetchWithRetry
  and the quranService operations
- `src/utils/validation.ts`: input validation and sanitization
- `src/constants/index.ts`: API_CONFIG, QURAN_CONFIG, ERROR_MESSAGES
- `src/services/geminiService.ts`: executeTool
- `src/components/ChatWindow` (unnamed/part_012): handleClear / handleSubmit
- `src/api/gemini` proxy (unnamed/part_010) and `src/api/gemini-image.ts`:
  checkRateLimit and the 429 gate
-/

/-! ### Error taxonomy (src/utils/errorHandler, part_007 lines 8-26) -/

/-- The failure taxonomy surfaced to callers (`enum ErrorType`). -/
inductive ErrorType where
  | NETWORK
  | API
  | VALIDATION
  | RATE_LIMIT
  | FORBIDDEN
  | UNKNOWN
deriving DecidableEq, Repr

/-- `class AppError extends Error`, carrying a user-facing message and a
classified type.  The `originalError` field is carried for logging only and is
never read by control flow, so it is omitted from the embedding. -/
structure AppError where
  message : String
  type : ErrorType
deriving DecidableEq, Repr

/-- A thrown JavaScript value as seen by `handleError`: an `AppError`, a
`TypeError` (with its message), any other `Error` (with its message), or a
thrown non-`Error` value. -/
inductive JsError where
  | appError (a : AppError)
  | typeError (msg : String)
  | jsError (msg : String)
  | nonError
deriving DecidableEq, Repr

/-! ### ERROR_MESSAGES (src/constants/index.ts lines 24-34) and validation
messages (src/utils/validation.ts lines 64, 74) -/

def NETWORK_ERROR : String := "Tidak dapat terhubung ke server. Periksa koneksi internet Anda."

def API_ERROR : String := "Terjadi kesalahan saat mengambil data. Silakan coba lagi."

def RATE_LIMIT_MESSAGE : String := "Terlalu banyak permintaan. Silakan tunggu sebentar dan coba lagi."

def QUOTA_EXCEEDED : String := "Quota API harian telah habis. Silakan coba lagi besok atau upgrade plan Anda."

def INVALID_SURAH : String := "Nomor surah tidak valid. Harus antara 1-114."

def INVALID_AYAH : String := "Nomor ayat tidak valid."

def UNKNOWN_ERROR : String := "Terjadi kesalahan yang tidak diketahui."

def FORBIDDEN_MESSAGE : String := "API key tidak valid atau tidak memiliki akses. Periksa API key Anda di .env.local"

def SHORT_QUERY_MESSAGE : String := "Query terlalu pendek. Minimal 2 karakter."

def INVALID_PAGE_MESSAGE : String := "Nomor halaman tidak valid."

/-! ### String.prototype.includes -/

/-- Does the character list `l` contain `pat` as a contiguous sublist? -/
def subListChars (pat : List Char) : List Char → Bool
  | [] => decide (pat = [])
  | c :: rest => pat.isPrefixOf (c :: rest) || subListChars pat rest

/-- JavaScript `s.includes(pat)`. -/
def strIncludes (s pat : String) : Bool :=
  subListChars pat.toList s.toList

/-! ### handleError (part_007 lines 31-89) -/

/-- The message-pattern classification chain of `handleError` applied to the
message of a thrown `Error` (the branches after the `TypeError` test, in source
order). -/
def classifyMessage (msg : String) : AppError :=
  if strIncludes msg "403" || strIncludes msg "Forbidden" || strIncludes msg "permission" then
    ⟨FORBIDDEN_MESSAGE, ErrorType.FORBIDDEN⟩
  else if strIncludes msg "QUOTA_EXCEEDED" || strIncludes msg "quota" ||
      strIncludes msg "exceeded your current quota" then
    ⟨QUOTA_EXCEEDED, ErrorType.RATE_LIMIT⟩
  else if strIncludes msg "429" || strIncludes msg "rate limit" || strIncludes msg "RATE_LIMIT" then
    ⟨RATE_LIMIT_MESSAGE, ErrorType.RATE_LIMIT⟩
  else if strIncludes msg "tidak valid" || strIncludes msg "invalid" then
    ⟨msg, ErrorType.VALIDATION⟩
  else if strIncludes msg "API" then
    ⟨API_ERROR, ErrorType.API⟩
  else
    ⟨msg, ErrorType.UNKNOWN⟩

/-- `handleError`: classifies a thrown value into an `AppError`.  An `AppError`
passes through; a `TypeError` whose message mentions `fetch` is NETWORK; any
other `Error` goes through the message-pattern chain; a non-`Error` value is
UNKNOWN with the generic message. -/
def handleError : JsError → AppError
  | .appError a => a
  | .typeError msg =>
      if strIncludes msg "fetch" then ⟨NETWORK_ERROR, ErrorType.NETWORK⟩
      else classifyMessage msg
  | .jsError msg => classifyMessage msg
  | .nonError => ⟨UNKNOWN_ERROR, ErrorType.UNKNOWN⟩

/-- `shouldRetry` (part_007 lines 94-101): retry only below the budget and only
on NETWORK or RATE_LIMIT errors. -/
def shouldRetry (error : AppError) (retryCount maxRetries : Nat) : Bool :=
  if maxRetries ≤ retryCount then false
  else if error.type = ErrorType.NETWORK ∨ error.type = ErrorType.RATE_LIMIT then true
  else false

/-! ### API_CONFIG (src/constants/index.ts lines 7-14) -/

def REQUEST_TIMEOUT : Nat := 10000

def MAX_RETRIES : Nat := 3

def RETRY_DELAY : Nat := 2000

/-- `createTimeoutPromise` (part_007 lines 119-125) rejects with
`AppError(NETWORK_ERROR, NETWORK)` when the timer wins the race. -/
def timeoutError : AppError := ⟨NETWORK_ERROR, ErrorType.NETWORK⟩

/-! ### fetchWithRetry (part_000 lines 257-293)

One iteration of the `for (let attempt = 0; attempt <= retries; attempt++)`
loop either resolves a `Response`, or throws.  A thrown value is what reaches
the `catch`; a `Response` that is not `ok` is itself converted by the loop body
into a thrown `Error("HTTP status: statusText")` before the `catch`.  The
outcome of each attempt (what the `fetchFn`/timeout race produces) is an
oracle `Nat → AttemptOutcome T` indexed by the attempt number. -/

/-- Outcome of a single attempt: a parsed successful payload, or the thrown
value that reaches the `catch` block. -/
inductive AttemptOutcome (T : Type) where
  | success (data : T)
  | failure (e : JsError)

/-- A `Response` with `ok = false` makes the loop body throw
`new Error("HTTP " + status + ": " + statusText)`. -/
def httpFailure (T : Type) (status : Nat) (statusText : String) : AttemptOutcome T :=
  .failure (.jsError ("HTTP " ++ toString status ++ ": " ++ statusText))

/-- The per-request timeout winning the `Promise.race` (part_000 lines 266-269)
rejects with `timeoutError`. -/
def timeoutFailure (T : Type) : AttemptOutcome T :=
  .failure (.appError timeoutError)

/-- Observable trace of one `fetchWithRetry` call: its result, the sequence of
backoff delays awaited between attempts, and how many attempts were made. -/
structure RetryTrace (T : Type) where
  result : Except AppError T
  delays : List Nat
  attempts : Nat
deriving Repr

/-- The retry loop, recursing on the number of loop iterations still allowed
after the current one (`remaining = retries - attempt`, so the current attempt
index is `retries - remaining`).  In the `remaining = 0` iteration the source
condition `attempt < retries` is false, so a failure breaks out of the loop
unconditionally. -/
def fetchLoopAux {T : Type} (f : Nat → AttemptOutcome T) (retries : Nat) :
    Nat → Nat → RetryTrace T
  | 0, _delay =>
    match f retries with
    | .success data => ⟨.ok data, [], 1⟩
    | .failure je => ⟨.error (handleError je), [], 1⟩
  | r + 1, delay =>
    let attempt := retries - (r + 1)
    match f attempt with
    | .success data => ⟨.ok data, [], 1⟩
    | .failure je =>
      let lastError := handleError je
      if shouldRetry lastError attempt retries then
        let rest := fetchLoopAux f retries r (delay * 2)
        ⟨rest.result, delay :: rest.delays, rest.attempts + 1⟩
      else ⟨.error lastError, [], 1⟩

/-- `fetchWithRetry(fetchFn, retries, delay)`: run the attempt loop starting at
attempt 0 with the configured base delay; the delay doubles after every retried
failure. -/
def fetchWithRetry {T : Type} (f : Nat → AttemptOutcome T) (retries delay : Nat) : RetryTrace T :=
  fetchLoopAux f retries retries delay

/-! ### Behaviour of the retry loop -/

/-- Prepending the base delay to a doubled geometric delay sequence gives the
geometric delay sequence, one element longer. -/
theorem geom_delays (delay k : Nat) :
    delay :: (List.range k).map (fun i => delay * 2 * 2 ^ i) =
      (List.range (k + 1)).map (fun i => delay * 2 ^ i) := by
  rw [List.range_succ_eq_map, List.map_cons, List.map_map]
  congr 1
  · simp
  · refine List.map_congr_left ?_
    intro i _
    simp [Function.comp, pow_succ]
    ring

/-- One retried iteration of the loop: a failure that `shouldRetry` accepts
awaits the current delay and continues with the delay doubled. -/
theorem fetchLoopAux_step_retry {T : Type} (f : Nat → AttemptOutcome T)
    (retries r delay : Nat) (e : JsError)
    (hf : f (retries - (r + 1)) = .failure e)
    (hr : shouldRetry (handleError e) (retries - (r + 1)) retries = true) :
    fetchLoopAux f retries (r + 1) delay =
      ⟨(fetchLoopAux f retries r (delay * 2)).result,
       delay :: (fetchLoopAux f retries r (delay * 2)).delays,
       (fetchLoopAux f retries r (delay * 2)).attempts + 1⟩ := by
  simp [fetchLoopAux, hf, hr]

/-- One successful iteration of the loop terminates it at once. -/
theorem fetchLoopAux_step_success {T : Type} (f : Nat → AttemptOutcome T)
    (retries r delay : Nat) (v : T)
    (hf : f (retries - (r + 1)) = .success v) :
    fetchLoopAux f retries (r + 1) delay = ⟨.ok v, [], 1⟩ := by
  simp [fetchLoopAux, hf]

/-- Invariants of the retry loop, by induction on the remaining iteration
budget: at least one and at most `remaining + 1` attempts are made, the
observed delays are the geometric doubling sequence of length `attempts - 1`,
and every attempt that was followed by another failed with an error classified
NETWORK or RATE_LIMIT. -/
theorem fetchLoopAux_spec {T : Type} (f : Nat → AttemptOutcome T) (retries : Nat) :
    ∀ remaining delay, remaining ≤ retries →
      1 ≤ (fetchLoopAux f retries remaining delay).attempts ∧
      (fetchLoopAux f retries remaining delay).attempts ≤ remaining + 1 ∧
      (fetchLoopAux f retries remaining delay).delays =
        (List.range ((fetchLoopAux f retries remaining delay).attempts - 1)).map
          (fun i => delay * 2 ^ i) ∧
      (∀ i, i + 1 < (fetchLoopAux f retries remaining delay).attempts →
        ∃ e, f (retries - remaining + i) = .failure e ∧
          ((handleError e).type = ErrorType.NETWORK ∨
           (handleError e).type = ErrorType.RATE_LIMIT)) := by
  intro remaining
  induction remaining with
  | zero =>
    intro delay _hle
    cases hf : f retries <;> simp [fetchLoopAux, hf]
  | succ r ih =>
    intro delay hle
    cases hf : f (retries - (r + 1)) with
    | success data =>
      rw [fetchLoopAux_step_success f retries r delay data hf]
      simp
    | failure je =>
      by_cases hr : shouldRetry (handleError je) (retries - (r + 1)) retries = true
      · obtain ⟨h1, h2, h3, h4⟩ := ih (delay * 2) (by omega)
        rw [fetchLoopAux_step_retry f retries r delay je hf hr]
        refine ⟨by simp, by simp; omega, ?_, ?_⟩
        · obtain ⟨k, hk⟩ := Nat.exists_eq_add_of_le h1
          have hk2 : (fetchLoopAux f retries r (delay * 2)).attempts = k + 1 := by omega
          simp only [Nat.add_sub_cancel]
          rw [h3, hk2]
          simpa using geom_delays delay k
        · intro i hi
          match i with
          | 0 =>
            refine ⟨je, by simpa using hf, ?_⟩
            simp only [shouldRetry] at hr
            by_cases hc : (handleError je).type = ErrorType.NETWORK ∨
                (handleError je).type = ErrorType.RATE_LIMIT
            · exact hc
            · simp [hc] at hr
          | j + 1 =>
            obtain ⟨e, he, ht⟩ := h4 j (by simp at hi; omega)
            refine ⟨e, ?_, ht⟩
            have hidx : retries - r + j = retries - (r + 1) + (j + 1) := by omega
            rw [← hidx]
            exact he
      · have hrf : shouldRetry (handleError je) (retries - (r + 1)) retries = false := by
          simpa using hr
        have heq : fetchLoopAux f retries (r + 1) delay =
            ⟨.error (handleError je), [], 1⟩ := by
          simp [fetchLoopAux, hf, hrf]
        rw [heq]
        simp

/-- A first attempt failing with an error classified neither NETWORK nor
RATE_LIMIT ends the call at once with that error surfaced. -/
theorem fetchWithRetry_fatal {T : Type} (f : Nat → AttemptOutcome T) (retries delay : Nat)
    (e : JsError) (hf : f 0 = .failure e)
    (hn : (handleError e).type ≠ ErrorType.NETWORK)
    (hr : (handleError e).type ≠ ErrorType.RATE_LIMIT) :
    fetchWithRetry f retries delay = ⟨.error (handleError e), [], 1⟩ := by
  cases retries with
  | zero => simp [fetchWithRetry, fetchLoopAux, hf]
  | succ r =>
    have hs : shouldRetry (handleError e) 0 (r + 1) = false := by
      simp [shouldRetry, hn, hr]
    simp [fetchWithRetry, fetchLoopAux, hf, hs]

/-- C2 counterexample: with the default configuration (`MAX_RETRIES = 3`,
`RETRY_DELAY = 2000`) a request whose every attempt times out makes 4 attempts,
not at most 3: the loop runs for `attempt = 0, 1, 2, 3` inclusive. -/
theorem retry_budget_counterexample :
    ¬ ((fetchWithRetry
          (fun _ => AttemptOutcome.failure (JsError.appError timeoutError) :
            Nat → AttemptOutcome Nat)
          MAX_RETRIES RETRY_DELAY).attempts ≤ 3) := by
  decide

/-- C2 (amended): `fetchWithRetry` makes up to `retries + 1` attempts (one
initial attempt plus up to `retries = MAX_RETRIES = 3` retries); the delays
between attempts are the exponentially doubling sequence starting from the
base delay; every retried attempt had failed with an error classified NETWORK
or RATE_LIMIT; a first failure of any other class (e.g. VALIDATION) surfaces
immediately with no further attempts; and the per-request timeout error is
classified NETWORK, hence retryable. -/
theorem retry_policy_amended {T : Type} (f : Nat → AttemptOutcome T) (retries delay : Nat) :
    (fetchWithRetry f retries delay).attempts ≤ retries + 1 ∧
    (fetchWithRetry f retries delay).delays =
      (List.range ((fetchWithRetry f retries delay).attempts - 1)).map
        (fun i => delay * 2 ^ i) ∧
    (∀ i, i + 1 < (fetchWithRetry f retries delay).attempts →
      ∃ e, f i = .failure e ∧
        ((handleError e).type = ErrorType.NETWORK ∨
         (handleError e).type = ErrorType.RATE_LIMIT)) ∧
    (∀ e, f 0 = .failure e → (handleError e).type ≠ ErrorType.NETWORK →
      (handleError e).type ≠ ErrorType.RATE_LIMIT →
      (fetchWithRetry f retries delay).attempts = 1 ∧
      (fetchWithRetry f retries delay).result = .error (handleError e)) ∧
    (handleError (.appError timeoutError)).type = ErrorType.NETWORK := by
  obtain ⟨_h1, h2, h3, h4⟩ := fetchLoopAux_spec f retries retries delay (Nat.le_refl retries)
  refine ⟨h2, h3, ?_, ?_, by decide⟩
  · intro i hi
    have := h4 i hi
    simpa [Nat.sub_self] using this
  · intro e hf hn hr
    rw [fetchWithRetry_fatal f retries delay e hf hn hr]
    exact ⟨rfl, rfl⟩

/-- Witness for the amended C2 theorem at a concrete input: a request that
times out on the first attempt and succeeds on the second, with the default
configuration. -/
theorem retry_policy_amended_witness :
    ((fetchWithRetry
        (fun n => if n = 0 then timeoutFailure Nat else AttemptOutcome.success 7)
        MAX_RETRIES RETRY_DELAY).attempts ≤ MAX_RETRIES + 1 ∧
     (fetchWithRetry
        (fun n => if n = 0 then timeoutFailure Nat else AttemptOutcome.success 7)
        MAX_RETRIES RETRY_DELAY).delays =
       (List.range ((fetchWithRetry
          (fun n => if n = 0 then timeoutFailure Nat else AttemptOutcome.success 7)
          MAX_RETRIES RETRY_DELAY).attempts - 1)).map (fun i => RETRY_DELAY * 2 ^ i) ∧
     (∀ i, i + 1 < (fetchWithRetry
          (fun n => if n = 0 then timeoutFailure Nat else AttemptOutcome.success 7)
          MAX_RETRIES RETRY_DELAY).attempts →
       ∃ e, (fun n => if n = 0 then timeoutFailure Nat else AttemptOutcome.success 7) i =
            .failure e ∧
         ((handleError e).type = ErrorType.NETWORK ∨
          (handleError e).type = ErrorType.RATE_LIMIT)) ∧
     (∀ e, (fun n => if n = 0 then timeoutFailure Nat else AttemptOutcome.success 7) 0 =
          .failure e →
       (handleError e).type ≠ ErrorType.NETWORK →
       (handleError e).type ≠ ErrorType.RATE_LIMIT →
       (fetchWithRetry
          (fun n => if n = 0 then timeoutFailure Nat else AttemptOutcome.success 7)
          MAX_RETRIES RETRY_DELAY).attempts = 1 ∧
       (fetchWithRetry
          (fun n => if n = 0 then timeoutFailure Nat else AttemptOutcome.success 7)
          MAX_RETRIES RETRY_DELAY).result = .error (handleError e)) ∧
     (handleError (.appError timeoutError)).type = ErrorType.NETWORK) :=
  retry_policy_amended
    (fun n => if n = 0 then timeoutFailure Nat else AttemptOutcome.success 7)
    MAX_RETRIES RETRY_DELAY

/-- C3: if the attempts 0 and 1 fail with network-classified errors and
attempt 2 succeeds, `fetchWithRetry` with the default configuration returns
the successful value after exactly 3 attempts, having awaited exactly the two
delays 2000ms and 4000ms. -/
theorem transient_failure_recovery {T : Type} (f : Nat → AttemptOutcome T) (v : T)
    (e0 e1 : JsError)
    (h0 : f 0 = .failure e0) (h0n : (handleError e0).type = ErrorType.NETWORK)
    (h1 : f 1 = .failure e1) (h1n : (handleError e1).type = ErrorType.NETWORK)
    (h2 : f 2 = .success v) :
    fetchWithRetry f MAX_RETRIES RETRY_DELAY = ⟨.ok v, [2000, 4000], 3⟩ := by
  have hr0 : shouldRetry (handleError e0) (3 - (2 + 1)) 3 = true := by
    simp [shouldRetry, h0n]
  have hr1 : shouldRetry (handleError e1) (3 - (1 + 1)) 3 = true := by
    simp [shouldRetry, h1n]
  have e0eq : f (3 - (2 + 1)) = .failure e0 := h0
  have e1eq : f (3 - (1 + 1)) = .failure e1 := h1
  have e2eq : f (3 - (0 + 1)) = .success v := h2
  have s1 := fetchLoopAux_step_retry f 3 2 2000 e0 e0eq hr0
  have s2 := fetchLoopAux_step_retry f 3 1 (2000 * 2) e1 e1eq hr1
  have s3 := fetchLoopAux_step_success f 3 0 (2000 * 2 * 2) v e2eq
  show fetchLoopAux f 3 (2 + 1) 2000 = ⟨.ok v, [2000, 4000], 3⟩
  rw [s1]
  norm_num at s2 ⊢
  rw [s2]
  norm_num at s3 ⊢
  rw [s3]
  exact ⟨rfl, rfl, rfl⟩

/-- Witness for C3 at a concrete input: the first two attempts time out, the
third returns the payload 42. -/
theorem transient_failure_recovery_witness :
    fetchWithRetry
        (fun n => if n ≤ 1 then timeoutFailure Nat else AttemptOutcome.success 42)
        MAX_RETRIES RETRY_DELAY = ⟨.ok 42, [2000, 4000], 3⟩ :=
  transient_failure_recovery
    (fun n => if n ≤ 1 then timeoutFailure Nat else AttemptOutcome.success 42)
    42 (.appError timeoutError) (.appError timeoutError)
    rfl (by decide) rfl (by decide) rfl

/-! ### Value objects (src/types, ShareModal.tsx lines 281-325) -/

/-- The `translated_name` sub-object of `Surah`. -/
structure TranslatedName where
  language_name : String
  name : String
deriving DecidableEq, Repr

/-- Chapter metadata as returned by the external API (`interface Surah`). -/
structure Surah where
  id : Int
  revelation_place : String
  revelation_order : Int
  bismillah_pre : Bool
  name_simple : String
  name_complex : String
  name_arabic : String
  verses_count : Int
  pages : List Int
  translated_name : TranslatedName
deriving DecidableEq, Repr

/-- One entry of `Verse.translations`. -/
structure VerseTranslation where
  id : Int
  resource_id : Int
  text : String
deriving DecidableEq, Repr

/-- A verse record (`interface Verse`). -/
structure Verse where
  id : Int
  verse_number : Int
  verse_key : String
  text_uthmani : String
  text_indopak : Option String
  translations : Option (List VerseTranslation)
deriving DecidableEq, Repr

/-- One entry of `SearchResult.translations`. -/
structure SearchTranslation where
  name : String
  text : String
deriving DecidableEq, Repr

/-- A search hit (`interface SearchResult`). -/
structure SearchResult where
  verse_key : String
  verse_id : Int
  text : String
  translations : List SearchTranslation
deriving DecidableEq, Repr

/-! ### Input validation (src/utils/validation.ts)

JavaScript numbers are modelled as `Int`; `Number.isInteger` then holds by
construction and the remaining range checks are kept verbatim. -/

def TOTAL_SURAHS : Nat := 114

/-- `isValidSurahNumber`: integer in `[1, QURAN_CONFIG.TOTAL_SURAHS]`. -/
def isValidSurahNumber (surah : Int) : Bool :=
  decide (1 ≤ surah ∧ surah ≤ (TOTAL_SURAHS : Int))

/-- `isValidAyahNumber`: positive integer (the per-surah upper bound is
deferred to the external API). -/
def isValidAyahNumber (ayah : Int) : Bool :=
  decide (1 ≤ ayah)

/-- JavaScript `String.prototype.trim`: drop leading and trailing whitespace. -/
def trimChars (l : List Char) : List Char :=
  (((l.dropWhile Char.isWhitespace).reverse.dropWhile Char.isWhitespace)).reverse

/-- `sanitizeInput`: trim, strip `<` and `>`, and cut to 500 characters. -/
def sanitizeInput (input : String) : String :=
  String.mk ((((trimChars input.toList).filter fun c => !(c == '<' || c == '>'))).take 500)

/-- `isValidLanguage`: membership in `QURAN_CONFIG.SUPPORTED_LANGUAGES`. -/
def isValidLanguage (lang : String) : Bool :=
  lang == "id" || lang == "en"

/-! ### quranService (part_000 lines 295-367)

Each operation validates its inputs, then runs its fetch closure through
`fetchWithRetry`.  The embedding records the result together with the number
of network attempts actually made, so "no network call happened" is the
statement `fetchCalls = 0`.  A validation failure is a thrown
`Error(message)`, converted by the surrounding `catch` through `handleError`;
an `AppError` thrown out of `fetchWithRetry` passes through `handleError`
unchanged. -/

/-- Result of one service call: the surfaced outcome and the number of times
the fetch function was invoked. -/
structure SvcResult (T : Type) where
  result : Except AppError T
  fetchCalls : Nat
deriving Repr

/-- Payload shape `{ chapter: Surah }` of the single-chapter endpoint. -/
structure ChapterResponse where
  chapter : Surah
deriving DecidableEq, Repr

/-- Payload shape `{ search?: { results?: SearchResult[] } }`. -/
structure SearchBody where
  results : Option (List SearchResult)
deriving DecidableEq, Repr

/-- Top-level search payload; `search` may be absent. -/
structure SearchResponse where
  search : Option SearchBody
deriving DecidableEq, Repr

/-- Payload shape `{ verse: Verse }` of the verse-by-key endpoint. -/
structure VerseResponse where
  verse : Verse
deriving DecidableEq, Repr

/-- One element of the Uthmani script payload. -/
structure UthmaniVerse where
  text_uthmani : String
deriving DecidableEq, Repr

/-- Payload shape `{ verses: [{ text_uthmani }] }` of the Uthmani endpoint. -/
structure UthmaniResponse where
  verses : List UthmaniVerse
deriving DecidableEq, Repr

/-- `quranService.getSurah(id)` (part_000 lines 309-322): validate the surah
number, then fetch `{ chapter }` with retry. -/
def getSurahSvc (id : Int) (net : Nat → AttemptOutcome ChapterResponse) : SvcResult Surah :=
  if isValidSurahNumber id then
    let t := fetchWithRetry net MAX_RETRIES RETRY_DELAY
    match t.result with
    | .ok data => ⟨.ok data.chapter, t.attempts⟩
    | .error e => ⟨.error (handleError (.appError e)), t.attempts⟩
  else
    ⟨.error (handleError (.jsError INVALID_SURAH)), 0⟩

/-- `quranService.searchVerses(query, language, page)` (part_000 lines
324-340): sanitize and length-check the query, check the page number, then
fetch with retry; `data.search?.results || []` tolerates a missing body.  The
language fallback only affects the request URL, which the fetch oracle
abstracts. -/
def searchVersesSvc (query language : String) (page : Int)
    (net : Nat → AttemptOutcome SearchResponse) : SvcResult (List SearchResult) :=
  let sanitizedQuery := sanitizeInput query
  if sanitizedQuery.length < 2 then
    ⟨.error (handleError (.jsError SHORT_QUERY_MESSAGE)), 0⟩
  else if !(decide (1 ≤ page)) then
    ⟨.error (handleError (.jsError INVALID_PAGE_MESSAGE)), 0⟩
  else
    let t := fetchWithRetry net MAX_RETRIES RETRY_DELAY
    match t.result with
    | .ok data =>
      ⟨.ok (match data.search with
            | none => []
            | some body => body.results.getD []), t.attempts⟩
    | .error e => ⟨.error (handleError (.appError e)), t.attempts⟩

/-- `quranService.getAyahDetails(surah, ayah, translationId)` (part_000 lines
342-366): validate both numbers, fetch the verse-with-translation payload,
then fetch the Uthmani script text, and merge:
`text_uthmani = uthmaniData.verses[0]?.text_uthmani ?? ''`.  The
`translationId` only affects the request URL, which the fetch oracle
abstracts. -/
def getAyahDetailsSvc (surah ayah translationId : Int)
    (netVerse : Nat → AttemptOutcome VerseResponse)
    (netUthmani : Nat → AttemptOutcome UthmaniResponse) : SvcResult Verse :=
  if isValidSurahNumber surah then
    if isValidAyahNumber ayah then
      let t1 := fetchWithRetry netVerse MAX_RETRIES RETRY_DELAY
      match t1.result with
      | .ok verseData =>
        let t2 := fetchWithRetry netUthmani MAX_RETRIES RETRY_DELAY
        (match t2.result with
         | .ok uthmaniData =>
           ⟨.ok { verseData.verse with
                  text_uthmani :=
                    ((uthmaniData.verses.head?).map UthmaniVerse.text_uthmani).getD "" },
            t1.attempts + t2.attempts⟩
         | .error e => ⟨.error (handleError (.appError e)), t1.attempts + t2.attempts⟩)
      | .error e => ⟨.error (handleError (.appError e)), t1.attempts⟩
    else
      ⟨.error (handleError (.jsError INVALID_AYAH)), 0⟩
  else
    ⟨.error (handleError (.jsError INVALID_SURAH)), 0⟩

/-! ### Claims about the data-client operations -/

/-- C4: for every surah number outside `[1,114]`, both `getSurah` and
`getAyahDetails` surface a VALIDATION-classified error (the `INVALID_SURAH`
message contains `tidak valid`) and the fetch function is never invoked. -/
theorem invalid_surah_validation_before_network
    (id ayah translationId : Int) (h : isValidSurahNumber id = false)
    (netS : Nat → AttemptOutcome ChapterResponse)
    (netV : Nat → AttemptOutcome VerseResponse)
    (netU : Nat → AttemptOutcome UthmaniResponse) :
    getSurahSvc id netS = ⟨.error ⟨INVALID_SURAH, ErrorType.VALIDATION⟩, 0⟩ ∧
    getAyahDetailsSvc id ayah translationId netV netU =
      ⟨.error ⟨INVALID_SURAH, ErrorType.VALIDATION⟩, 0⟩ := by
  have hc : handleError (.jsError INVALID_SURAH) = ⟨INVALID_SURAH, ErrorType.VALIDATION⟩ := by
    decide
  constructor
  · simp [getSurahSvc, h, hc]
  · simp [getAyahDetailsSvc, h, hc]

/-- Witness for C4 at surah number 0 (and at 115 the same theorem applies):
validation fails and no network attempt happens. -/
theorem invalid_surah_validation_before_network_witness :
    getSurahSvc 0 (fun _ => timeoutFailure ChapterResponse) =
      ⟨.error ⟨INVALID_SURAH, ErrorType.VALIDATION⟩, 0⟩ ∧
    getAyahDetailsSvc 0 1 33 (fun _ => timeoutFailure VerseResponse)
        (fun _ => timeoutFailure UthmaniResponse) =
      ⟨.error ⟨INVALID_SURAH, ErrorType.VALIDATION⟩, 0⟩ :=
  invalid_surah_validation_before_network 0 1 33 (by decide)
    (fun _ => timeoutFailure ChapterResponse)
    (fun _ => timeoutFailure VerseResponse)
    (fun _ => timeoutFailure UthmaniResponse)

/-- C5 counterexample: for the one-character query `"a"` the error surfaced by
`searchVerses` is classified UNKNOWN, not VALIDATION — the thrown message
`Query terlalu pendek. Minimal 2 karakter.` contains neither `tidak valid` nor
`invalid`, so the classification chain of `handleError` falls through to the
UNKNOWN fallback.  No network attempt is made. -/
theorem short_query_not_validation_counterexample :
    (searchVersesSvc "a" "id" 1 (fun _ => AttemptOutcome.success ⟨none⟩)).result =
      .error ⟨SHORT_QUERY_MESSAGE, ErrorType.UNKNOWN⟩ ∧
    (searchVersesSvc "a" "id" 1 (fun _ => AttemptOutcome.success ⟨none⟩)).fetchCalls = 0 ∧
    ErrorType.UNKNOWN ≠ ErrorType.VALIDATION := by
  refine ⟨rfl, rfl, by decide⟩

/-- C5 (amended): for every query whose sanitized form is shorter than 2
characters, `searchVerses` fails before any network call (the fetch function
is never invoked), surfacing the `SHORT_QUERY_MESSAGE` error — which
`handleError` classifies as UNKNOWN, not VALIDATION. -/
theorem short_query_error_amended (query language : String) (page : Int)
    (net : Nat → AttemptOutcome SearchResponse)
    (h : (sanitizeInput query).length < 2) :
    searchVersesSvc query language page net =
      ⟨.error ⟨SHORT_QUERY_MESSAGE, ErrorType.UNKNOWN⟩, 0⟩ := by
  have hc : handleError (.jsError SHORT_QUERY_MESSAGE) =
      ⟨SHORT_QUERY_MESSAGE, ErrorType.UNKNOWN⟩ := by decide
  simp [searchVersesSvc, h, hc]

/-- Witness for the amended C5 theorem at the concrete query `" x "`, whose
trimmed form has length 1. -/
theorem short_query_error_amended_witness :
    searchVersesSvc " x " "en" 1 (fun _ => AttemptOutcome.success ⟨none⟩) =
      ⟨.error ⟨SHORT_QUERY_MESSAGE, ErrorType.UNKNOWN⟩, 0⟩ :=
  short_query_error_amended " x " "en" 1 (fun _ => AttemptOutcome.success ⟨none⟩)
    (by decide)

/-- C8: when both dependent fetches of `getAyahDetails` succeed but the
Uthmani script payload contains no verses, the call still succeeds and the
returned verse is the fetched verse with `text_uthmani` defaulted to the
empty string. -/
theorem ayah_details_empty_uthmani_defaults
    (surah ayah translationId : Int)
    (hs : isValidSurahNumber surah = true) (ha : isValidAyahNumber ayah = true)
    (netVerse : Nat → AttemptOutcome VerseResponse)
    (netUthmani : Nat → AttemptOutcome UthmaniResponse)
    (vr : VerseResponse)
    (hv : (fetchWithRetry netVerse MAX_RETRIES RETRY_DELAY).result = .ok vr)
    (hu : (fetchWithRetry netUthmani MAX_RETRIES RETRY_DELAY).result = .ok ⟨[]⟩) :
    (getAyahDetailsSvc surah ayah translationId netVerse netUthmani).result =
      .ok { vr.verse with text_uthmani := "" } := by
  simp [getAyahDetailsSvc, hs, ha, hv, hu]

/-- Witness for C8 at surah 1, ayah 1, with a concrete verse payload and an
empty Uthmani payload. -/
theorem ayah_details_empty_uthmani_defaults_witness :
    (getAyahDetailsSvc 1 1 33
        (fun _ => AttemptOutcome.success ⟨⟨1, 1, "1:1", "orig", none, none⟩⟩)
        (fun _ => AttemptOutcome.success ⟨[]⟩)).result =
      .ok { id := 1, verse_number := 1, verse_key := "1:1", text_uthmani := "",
            text_indopak := none, translations := none } :=
  ayah_details_empty_uthmani_defaults 1 1 33 (by decide) (by decide)
    (fun _ => AttemptOutcome.success ⟨⟨1, 1, "1:1", "orig", none, none⟩⟩)
    (fun _ => AttemptOutcome.success ⟨[]⟩)
    ⟨⟨1, 1, "1:1", "orig", none, none⟩⟩ rfl rfl

/-! ### Tool registry and executor (src/services/geminiService.ts lines 90-108)

The three registered data-client operations are abstracted as oracle
functions of the raw (opaque) args object; each either returns a payload or
throws an `AppError` out of the quranService layer. -/

/-- A successful data payload of a tool dispatch. -/
inductive ToolValue where
  | searchResults (rs : List SearchResult)
  | verseDetail (v : Verse)
  | surahInfo (s : Surah)
deriving DecidableEq, Repr

/-- The structured value `executeTool` resolves with: a data payload, the
benign zero-result message object, or a structured `{ error: ... }` object. -/
inductive ToolOutcome where
  | data (v : ToolValue)
  | message (m : String)
  | error (m : String)
deriving DecidableEq, Repr

/-- The data-client operations visible to `executeTool`, as oracles over the
opaque args object `α`. -/
structure ToolEnv (α : Type) where
  searchVerses : α → Except AppError (List SearchResult)
  getAyahDetails : α → Except AppError Verse
  getSurah : α → Except AppError Surah

/-- The `try` block of `executeTool`: the `switch` over the tool name.  A
registered name dispatches to the matching data-client operation (a zero-result
search becomes the benign message object); an unregistered name throws
`Error("Tool <name> not found")`. -/
def executeToolTry {α : Type} (env : ToolEnv α) (name : String) (args : α) :
    Except JsError ToolOutcome :=
  if name = "search_verse" then
    match env.searchVerses args with
    | .ok searchData =>
      if searchData.length = 0 then .ok (.message "Tidak ada ayat yang ditemukan.")
      else .ok (.data (.searchResults searchData))
    | .error e => .error (.appError e)
  else if name = "get_ayah_details" then
    match env.getAyahDetails args with
    | .ok v => .ok (.data (.verseDetail v))
    | .error e => .error (.appError e)
  else if name = "get_surah_info" then
    match env.getSurah args with
    | .ok s => .ok (.data (.surahInfo s))
    | .error e => .error (.appError e)
  else
    .error (.jsError ("Tool " ++ name ++ " not found"))

/-- `executeTool`: the `try` block wrapped in the `catch` that turns every
thrown value into the structured result
`{ error: "Terjadi kesalahan saat menghubungi API Quran.com." }`, so the
function always returns a value. -/
def executeTool {α : Type} (env : ToolEnv α) (name : String) (args : α) : ToolOutcome :=
  match executeToolTry env name args with
  | .ok r => r
  | .error _ => .error "Terjadi kesalahan saat menghubungi API Quran.com."

/-- C6: `executeTool` is total by construction (it is a function into
`ToolOutcome`); every thrown value inside the `try` block — in particular the
`Tool <name> not found` error thrown for every unregistered name — is caught
and becomes the structured `{ error: ... }` result rather than escaping. -/
theorem executeTool_unknown_name_structured_error {α : Type} (env : ToolEnv α)
    (name : String) (args : α)
    (h1 : name ≠ "search_verse") (h2 : name ≠ "get_ayah_details")
    (h3 : name ≠ "get_surah_info") :
    executeToolTry env name args = .error (.jsError ("Tool " ++ name ++ " not found")) ∧
    executeTool env name args = .error "Terjadi kesalahan saat menghubungi API Quran.com." ∧
    (∀ e, executeToolTry env name args = .error e →
      executeTool env name args =
        .error "Terjadi kesalahan saat menghubungi API Quran.com.") := by
  have ht : executeToolTry env name args =
      .error (.jsError ("Tool " ++ name ++ " not found")) := by
    simp [executeToolTry, h1, h2, h3]
  refine ⟨ht, by simp [executeTool, ht], ?_⟩
  intro e he
  simp [executeTool, he]

/-- Witness for C6 at the unregistered tool name `generate_image`. -/
theorem executeTool_unknown_name_structured_error_witness :
    executeToolTry
        (⟨fun _ => .ok [], fun _ => .error timeoutError, fun _ => .error timeoutError⟩ :
          ToolEnv Unit) "generate_image" () =
      .error (.jsError ("Tool " ++ "generate_image" ++ " not found")) ∧
    executeTool
        (⟨fun _ => .ok [], fun _ => .error timeoutError, fun _ => .error timeoutError⟩ :
          ToolEnv Unit) "generate_image" () =
      .error "Terjadi kesalahan saat menghubungi API Quran.com." ∧
    (∀ e, executeToolTry
        (⟨fun _ => .ok [], fun _ => .error timeoutError, fun _ => .error timeoutError⟩ :
          ToolEnv Unit) "generate_image" () = .error e →
      executeTool
        (⟨fun _ => .ok [], fun _ => .error timeoutError, fun _ => .error timeoutError⟩ :
          ToolEnv Unit) "generate_image" () =
        .error "Terjadi kesalahan saat menghubungi API Quran.com.") :=
  executeTool_unknown_name_structured_error
    (⟨fun _ => .ok [], fun _ => .error timeoutError, fun _ => .error timeoutError⟩ :
      ToolEnv Unit)
    "generate_image" () (by decide) (by decide) (by decide)

/-! ### Tool-call execution during a chat turn (ChatWindow.tsx lines 52-69,
part_012 lines 74-95)

`handleSubmit` maps over `response.toolCalls`, executing each call and
packaging `{ name: tc.name, args: tc.args, result }`; the function-response
context re-submission maps each packaged result to
`{ functionResponse: { name: tr.name, response: { result: tr.result } } }`.
The args object and the executed result are kept opaque (`α`, `β`). -/

/-- A model-issued tool call `{ name, args }`. -/
structure ToolCall (α : Type) where
  name : String
  args : α
deriving DecidableEq, Repr

/-- A packaged tool result `{ name, args, result }` attached to the model
message. -/
structure ToolResult (α β : Type) where
  name : String
  args : α
  result : β
deriving DecidableEq, Repr

/-- One `functionResponse` part of the re-submitted context. -/
structure FunctionResponsePart (β : Type) where
  name : String
  result : β
deriving DecidableEq, Repr

/-- `toolCalls.map(tc => ({ name: tc.name, args: tc.args, result:
executeTool(tc.name, tc.args) }))`. -/
def buildToolResults {α β : Type} (exec : String → α → β) (calls : List (ToolCall α)) :
    List (ToolResult α β) :=
  calls.map fun tc => ⟨tc.name, tc.args, exec tc.name tc.args⟩

/-- `toolResults.map(tr => ({ functionResponse: { name: tr.name, response:
{ result: tr.result } } }))`. -/
def buildFunctionResponseParts {α β : Type} (trs : List (ToolResult α β)) :
    List (FunctionResponsePart β) :=
  trs.map fun tr => ⟨tr.name, tr.result⟩

/-- C9: the i-th packaged ToolResult echoes the i-th originating ToolCall's
name and args unchanged, carries exactly the result of executing that call,
and the i-th re-submitted functionResponse part is paired with that same
call; the packaged list has one entry per call. -/
theorem tool_results_echo_calls {α β : Type} (exec : String → α → β)
    (calls : List (ToolCall α)) (i : Nat) (tc : ToolCall α)
    (h : calls[i]? = some tc) :
    (buildToolResults exec calls).length = calls.length ∧
    (buildToolResults exec calls)[i]? = some ⟨tc.name, tc.args, exec tc.name tc.args⟩ ∧
    (buildFunctionResponseParts (buildToolResults exec calls))[i]? =
      some ⟨tc.name, exec tc.name tc.args⟩ := by
  refine ⟨by simp [buildToolResults], ?_, ?_⟩
  · simp [buildToolResults, h]
  · simp [buildFunctionResponseParts, buildToolResults, h]

/-- Witness for C9 on a concrete two-call list, checking the echo at index 1. -/
theorem tool_results_echo_calls_witness :
    (buildToolResults (fun n _ => n ++ "!") [⟨"search_verse", 5⟩, ⟨"get_surah_info", 9⟩]).length =
      ([⟨"search_verse", 5⟩, ⟨"get_surah_info", 9⟩] : List (ToolCall Nat)).length ∧
    (buildToolResults (fun n _ => n ++ "!")
        [⟨"search_verse", 5⟩, ⟨"get_surah_info", 9⟩])[1]? =
      some ⟨"get_surah_info", 9, "get_surah_info" ++ "!"⟩ ∧
    (buildFunctionResponseParts (buildToolResults (fun n _ => n ++ "!")
        [⟨"search_verse", 5⟩, ⟨"get_surah_info", 9⟩]))[1]? =
      some ⟨"get_surah_info", "get_surah_info" ++ "!"⟩ :=
  tool_results_echo_calls (fun n _ => n ++ "!")
    [⟨"search_verse", 5⟩, ⟨"get_surah_info", 9⟩] 1 ⟨"get_surah_info", 9⟩ rfl

/-! ### Proxy rate limiting (unnamed/part_010 lines 16-36 and lines 63-70;
src/api/gemini-image.ts lines 16-36)

Both serverless proxies keep `rateLimitMap: Map<ip, { count, resetTime }>` in
process memory; the chat proxy uses limit 30 per 60000ms window, the image
proxy limit 10 per 3600000ms window.  The map is modelled as a function from
caller identity to an optional record. -/

/-- One `{ count, resetTime }` record of the in-memory rate-limit map. -/
structure RateRecord where
  count : Nat
  resetTime : Nat
deriving DecidableEq, Repr

/-- The in-memory `rateLimitMap`. -/
abbrev RateMap := String → Option RateRecord

/-- `rateLimitMap.set(ip, v)`. -/
def mapSet (m : RateMap) (ip : String) (v : RateRecord) : RateMap :=
  fun k => if k = ip then some v else m k

/-- `checkRateLimit(ip)`, parametrized by the proxy's limit and window: a
missing or expired record starts a fresh window with count 1 and is accepted;
a live record at or above the limit is rejected without touching the map; a
live record below the limit is incremented and accepted. -/
def checkRateLimit (limit window now : Nat) (ip : String) (m : RateMap) :
    Bool × RateMap :=
  match m ip with
  | none => (true, mapSet m ip ⟨1, now + window⟩)
  | some record =>
    if record.resetTime < now then
      (true, mapSet m ip ⟨1, now + window⟩)
    else if limit ≤ record.count then
      (false, m)
    else
      (true, mapSet m ip ⟨record.count + 1, record.resetTime⟩)

/-- The chat proxy budget: `RATE_LIMIT = 30` requests per
`RATE_WINDOW = 60 * 1000` ms (part_010 lines 18-19). -/
def chatRateLimit : Nat := 30

def chatRateWindow : Nat := 60000

/-- The image proxy budget: 10 requests per hour (gemini-image.ts lines
18-19). -/
def imageRateLimit : Nat := 10

def imageRateWindow : Nat := 3600000

/-- The rate-limiting step of the chat proxy handler (part_010 lines 63-70):
a rejected caller gets the HTTP 429 response
`{ error: "Too many requests. Please try again later." }`; an accepted caller
proceeds (no early response). -/
def chatRateGate (now : Nat) (ip : String) (m : RateMap) :
    Option (Nat × String) × RateMap :=
  let checked := checkRateLimit chatRateLimit chatRateWindow now ip m
  if checked.1 then (none, checked.2)
  else (some (429, "Too many requests. Please try again later."), checked.2)

/-- A sequence of requests from one caller, threaded through `checkRateLimit`:
returns the accept/reject verdicts in order and the final map. -/
def runRequests (limit window : Nat) (ip : String) :
    List Nat → RateMap → List Bool × RateMap
  | [], m => ([], m)
  | t :: ts, m =>
    let step := checkRateLimit limit window t ip m
    let rest := runRequests limit window ip ts step.2
    (step.1 :: rest.1, rest.2)

/-- Requests that stay inside a live window and inside the budget are all
accepted and only bump the counter: from a record `⟨c, r⟩` with every request
time at most `r` and `c + n ≤ limit`, all `n` requests are accepted and the
record becomes `⟨c + n, r⟩`. -/
theorem runRequests_within_window (limit window : Nat) (ip : String) :
    ∀ (ts : List Nat) (m : RateMap) (c r : Nat),
      m ip = some ⟨c, r⟩ → (∀ t ∈ ts, t ≤ r) → c + ts.length ≤ limit →
      (runRequests limit window ip ts m).1 = List.replicate ts.length true ∧
      (runRequests limit window ip ts m).2 ip = some ⟨c + ts.length, r⟩ := by
  intro ts
  induction ts with
  | nil => intro m c r hm _ _; simpa [runRequests] using hm
  | cons t ts ih =>
    intro m c r hm hts hc
    have hstep : checkRateLimit limit window t ip m =
        (true, mapSet m ip ⟨c + 1, r⟩) := by
      have ht : ¬ r < t := by
        have := hts t (List.mem_cons_self t ts)
        omega
      have hlt : ¬ limit ≤ c := by
        simp at hc
        omega
      simp [checkRateLimit, hm, ht, hlt]
    have hm2 : mapSet m ip ⟨c + 1, r⟩ ip = some ⟨c + 1, r⟩ := by
      simp [mapSet]
    obtain ⟨ih1, ih2⟩ := ih (mapSet m ip ⟨c + 1, r⟩) (c + 1) r hm2
      (fun t ht => hts t (List.mem_cons_of_mem _ ht)) (by simp at hc ⊢; omega)
    constructor
    · simp [runRequests, hstep, ih1, List.replicate_succ]
    · simp only [runRequests, hstep]
      simpa [Nat.add_assoc, Nat.add_comm 1 ts.length] using ih2

/-- C7: for a fresh caller, the first 30 chat-proxy requests inside one fixed
window are accepted; a 31st request inside the same window is rejected with
the HTTP 429 response and leaves the record (count and reset time) untouched;
and the first request after the window's reset time has elapsed is accepted
again with the counter restarted at 1 in a fresh window. -/
theorem chat_rate_limit_window
    (ip : String) (m0 : RateMap) (hm : m0 ip = none)
    (t0 : Nat) (rest : List Nat) (hlen : rest.length = 29)
    (hrest : ∀ t ∈ rest, t ≤ t0 + chatRateWindow)
    (t31 t32 : Nat) (h31 : t31 ≤ t0 + chatRateWindow) (h32 : t0 + chatRateWindow < t32) :
    (runRequests chatRateLimit chatRateWindow ip (t0 :: rest) m0).1 =
      List.replicate 30 true ∧
    chatRateGate t31 ip (runRequests chatRateLimit chatRateWindow ip (t0 :: rest) m0).2 =
      (some (429, "Too many requests. Please try again later."),
       (runRequests chatRateLimit chatRateWindow ip (t0 :: rest) m0).2) ∧
    (chatRateGate t32 ip (runRequests chatRateLimit chatRateWindow ip (t0 :: rest) m0).2).1 =
      none ∧
    (chatRateGate t32 ip (runRequests chatRateLimit chatRateWindow ip (t0 :: rest) m0).2).2 ip =
      some ⟨1, t32 + chatRateWindow⟩ := by
  have hstep0 : checkRateLimit chatRateLimit chatRateWindow t0 ip m0 =
      (true, mapSet m0 ip ⟨1, t0 + chatRateWindow⟩) := by
    simp [checkRateLimit, hm]
  have hm1 : mapSet m0 ip ⟨1, t0 + chatRateWindow⟩ ip = some ⟨1, t0 + chatRateWindow⟩ := by
    simp [mapSet]
  obtain ⟨h1, h2⟩ := runRequests_within_window chatRateLimit chatRateWindow ip rest
    (mapSet m0 ip ⟨1, t0 + chatRateWindow⟩) 1 (t0 + chatRateWindow) hm1 hrest
    (by simp [hlen, chatRateLimit])
  have hrun : (runRequests chatRateLimit chatRateWindow ip (t0 :: rest) m0).1 =
      List.replicate 30 true ∧
      (runRequests chatRateLimit chatRateWindow ip (t0 :: rest) m0).2 ip =
        some ⟨30, t0 + chatRateWindow⟩ := by
    constructor
    · simp [runRequests, hstep0, h1, hlen, List.replicate_succ]
    · simp only [runRequests, hstep0]
      simpa [hlen] using h2
  refine ⟨hrun.1, ?_, ?_, ?_⟩
  · have hrej : checkRateLimit chatRateLimit chatRateWindow t31 ip
        (runRequests chatRateLimit chatRateWindow ip (t0 :: rest) m0).2 =
        (false, (runRequests chatRateLimit chatRateWindow ip (t0 :: rest) m0).2) := by
      have ht : ¬ (t0 + chatRateWindow) < t31 := by omega
      have hfull : chatRateLimit ≤ 30 := Nat.le_refl 30
      simp [checkRateLimit, hrun.2, ht, hfull]
    simp [chatRateGate, hrej]
  · have hacc : checkRateLimit chatRateLimit chatRateWindow t32 ip
        (runRequests chatRateLimit chatRateWindow ip (t0 :: rest) m0).2 =
        (true, mapSet (runRequests chatRateLimit chatRateWindow ip (t0 :: rest) m0).2 ip
          ⟨1, t32 + chatRateWindow⟩) := by
      simp [checkRateLimit, hrun.2, h32]
    simp [chatRateGate, hacc]
  · have hacc : checkRateLimit chatRateLimit chatRateWindow t32 ip
        (runRequests chatRateLimit chatRateWindow ip (t0 :: rest) m0).2 =
        (true, mapSet (runRequests chatRateLimit chatRateWindow ip (t0 :: rest) m0).2 ip
          ⟨1, t32 + chatRateWindow⟩) := by
      simp [checkRateLimit, hrun.2, h32]
    simp [chatRateGate, hacc, mapSet]

/-- Witness for C7: a fresh caller issues 30 requests at time 0, a 31st at
time 0 (rejected with 429, record untouched), and one at time 60001, after
the window reset time 60000 (accepted, counter restarted at 1). -/
theorem chat_rate_limit_window_witness :
    (runRequests chatRateLimit chatRateWindow "1.2.3.4"
        (0 :: List.replicate 29 0) (fun _ => none)).1 = List.replicate 30 true ∧
    chatRateGate 0 "1.2.3.4"
        (runRequests chatRateLimit chatRateWindow "1.2.3.4"
          (0 :: List.replicate 29 0) (fun _ => none)).2 =
      (some (429, "Too many requests. Please try again later."),
       (runRequests chatRateLimit chatRateWindow "1.2.3.4"
          (0 :: List.replicate 29 0) (fun _ => none)).2) ∧
    (chatRateGate 60001 "1.2.3.4"
        (runRequests chatRateLimit chatRateWindow "1.2.3.4"
          (0 :: List.replicate 29 0) (fun _ => none)).2).1 = none ∧
    (chatRateGate 60001 "1.2.3.4"
        (runRequests chatRateLimit chatRateWindow "1.2.3.4"
          (0 :: List.replicate 29 0) (fun _ => none)).2).2 "1.2.3.4" =
      some ⟨1, 60001 + chatRateWindow⟩ :=
  chat_rate_limit_window "1.2.3.4" (fun _ => none) rfl 0 (List.replicate 29 0)
    (by decide) (by decide) 0 60001 (by decide) (by decide)

/-- `mapSet` lookup. -/
theorem mapSet_lookup (m : RateMap) (ip k : String) (v : RateRecord) :
    mapSet m ip v k = if k = ip then some v else m k := rfl

/-- C10: for any caller-indexed record map in which every record satisfies
`1 ≤ count ≤ limit`, one `checkRateLimit` step (with `limit ≥ 1`) preserves
that invariant — a record is only ever created with count 1 at the start of a
window or incremented while strictly below the limit — and a request arriving
while a live record has reached the limit is rejected without modifying the
map at all, so the count never exceeds the limit and rejected requests do not
extend the window's reset time. -/
theorem rate_limit_record_invariant
    (limit window now : Nat) (ip : String) (m : RateMap)
    (hlim : 1 ≤ limit)
    (hinv : ∀ k rec, m k = some rec → 1 ≤ rec.count ∧ rec.count ≤ limit) :
    (∀ k rec, (checkRateLimit limit window now ip m).2 k = some rec →
      1 ≤ rec.count ∧ rec.count ≤ limit) ∧
    (∀ rec, m ip = some rec → limit ≤ rec.count → now ≤ rec.resetTime →
      checkRateLimit limit window now ip m = (false, m)) := by
  constructor
  · intro k rec hk
    cases hmip : m ip with
    | none =>
      simp only [checkRateLimit, hmip] at hk
      by_cases hki : k = ip
      · rw [mapSet_lookup, if_pos hki] at hk
        have : (⟨1, now + window⟩ : RateRecord) = rec := by
          simpa using hk
        subst this
        exact ⟨Nat.le_refl 1, hlim⟩
      · rw [mapSet_lookup, if_neg hki] at hk
        exact hinv k rec hk
    | some record =>
      by_cases hrt : record.resetTime < now
      · simp only [checkRateLimit, hmip, if_pos hrt] at hk
        by_cases hki : k = ip
        · rw [mapSet_lookup, if_pos hki] at hk
          have : (⟨1, now + window⟩ : RateRecord) = rec := by
            simpa using hk
          subst this
          exact ⟨Nat.le_refl 1, hlim⟩
        · rw [mapSet_lookup, if_neg hki] at hk
          exact hinv k rec hk
      · by_cases hcl : limit ≤ record.count
        · simp only [checkRateLimit, hmip, if_neg hrt, if_pos hcl] at hk
          exact hinv k rec hk
        · simp only [checkRateLimit, hmip, if_neg hrt, if_neg hcl] at hk
          by_cases hki : k = ip
          · rw [mapSet_lookup, if_pos hki] at hk
            have : (⟨record.count + 1, record.resetTime⟩ : RateRecord) = rec := by
              simpa using hk
            subst this
            exact ⟨by simp, by simp; omega⟩
          · rw [mapSet_lookup, if_neg hki] at hk
            exact hinv k rec hk
  · intro rec hrec hcount hreset
    have ht : ¬ rec.resetTime < now := by omega
    simp [checkRateLimit, hrec, ht, hcount]

/-- Witness for C10: the empty map with the chat budget; every hypothesis is
discharged at `limit = 30`, `window = 60000`, `now = 0`. -/
theorem rate_limit_record_invariant_witness :
    (∀ k rec, (checkRateLimit 30 60000 0 "1.2.3.4" (fun _ => none)).2 k = some rec →
      1 ≤ rec.count ∧ rec.count ≤ 30) ∧
    (∀ rec, (fun _ => (none : Option RateRecord)) "1.2.3.4" = some rec →
      30 ≤ rec.count → 0 ≤ rec.resetTime →
      checkRateLimit 30 60000 0 "1.2.3.4" (fun _ => none) =
        (false, fun _ => none)) :=
  rate_limit_record_invariant 30 60000 0 "1.2.3.4" (fun _ => none) (by decide)
    (fun _ _ h => Option.noConfusion h)

/-! ### Chat turn state machine with clear-cancellation (unnamed/part_012
lines 9-123)

The component state is `messages`, `input`, `isLoading` and the
`lastClearTimestamp` ref.  `handleSubmit` records `requestTime = Date.now()`
when the turn starts, appends the user message, and — after every await —
compares `requestTime < lastClearTimestamp.current` before touching state.
The everything-after-the-first-await part of a turn is modelled as
`resumeTurn`, driven by what the model interaction produced (`TurnOutcome`);
tool executions themselves touch no component state.  The tool-result args
object is kept opaque (`α`). -/

/-- A chat transcript entry (`interface ChatMessage`), with the optional
packaged tool results attached to model messages. -/
structure ChatMessage (α : Type) where
  role : String
  content : String
  toolResults : Option (List (ToolResult α ToolOutcome))

/-- The ChatWindow component state, including the `lastClearTimestamp` ref. -/
structure ChatState (α : Type) where
  messages : List (ChatMessage α)
  input : String
  isLoading : Bool
  lastClearTimestamp : Nat

/-- The fixed initial greeting (part_012 lines 10-13). -/
def initialMessage {α : Type} : ChatMessage α :=
  ⟨"model",
   "Assalamu’alaikum Warahmatullahi Wabarakatuh. Selamat datang di **Sahabat Quran**.\n\nSaya adalah teman virtual Anda untuk menjelajahi keindahan firman Allah. Saya siap membantu Anda mencari ayat berdasarkan topik, memahami makna, atau sekadar berbagi inspirasi dari Al-Quran.\n\nApa yang ingin Anda pelajari hari ini?\n\n*Contoh: \"Ayat tentang ketenangan hati\", \"Kisah Nabi Musa di Al-Quran\", atau \"Tampilkan Surah Al-Fatihah\"*",
   none⟩

/-- JavaScript `String.prototype.trim` on `String`. -/
def jsTrim (s : String) : String :=
  String.mk (trimChars s.toList)

/-- `handleClear` (part_012 lines 30-43): record the clear timestamp, reset
the transcript to the initial greeting, clear the input and stop the loading
indicator.  (Aborting the in-flight network request only affects the network
layer, not the component state.) -/
def handleClear {α : Type} (now : Nat) (_s : ChatState α) : ChatState α :=
  { messages := [initialMessage], input := "", isLoading := false,
    lastClearTimestamp := now }

/-- The synchronous prefix of `handleSubmit` (part_012 lines 45-59): bail out
on empty input or while loading; otherwise clear the input box, append the
user message and start loading. -/
def handleSubmitStart {α : Type} (s : ChatState α) : ChatState α :=
  if jsTrim s.input = "" ∨ s.isLoading = true then s
  else
    { s with input := "",
             messages := s.messages ++ [⟨"user", jsTrim s.input, none⟩],
             isLoading := true }

/-- What the model interaction of one turn eventually produced: a plain text
reply, tool calls together with their executed results and the second-call
text, or a thrown error (the `catch` path). -/
inductive TurnOutcome (α : Type) where
  | noTools (text : String)
  | withTools (toolResults : List (ToolResult α ToolOutcome)) (finalText : String)
  | failed

/-- Fallback text when the second call returns empty text (part_012
line 106). -/
def PROCESSED_FALLBACK : String := "Hasil telah diproses. Lihat referensi di bawah."

/-- The apology message of the `catch` path (part_012 line 117). -/
def TURN_ERROR_TEXT : String :=
  "Maaf, Sahabat Quran sedang mengalami sedikit kendala. Coba cek koneksi Anda ya."

/-- The remainder of `handleSubmit` after the first model call resolves
(part_012 lines 69-122): before every state change the turn compares its
`requestTime` against the current `lastClearTimestamp` (source lines 72, 83,
102 and 114) and silently returns when superseded; the `finally` clause stops
the loading indicator only for a non-superseded turn (line 119). -/
def resumeTurn {α : Type} (requestTime : Nat) (outcome : TurnOutcome α)
    (s : ChatState α) : ChatState α :=
  match outcome with
  | .noTools text =>
    if requestTime < s.lastClearTimestamp then s
    else
      { s with messages := s.messages ++ [⟨"model", text, none⟩], isLoading := false }
  | .withTools toolResults finalText =>
    if requestTime < s.lastClearTimestamp then s
    else if requestTime < s.lastClearTimestamp then s
    else if requestTime < s.lastClearTimestamp then s
    else
      { s with
        messages := s.messages ++
          [⟨"model",
            if finalText = "" then PROCESSED_FALLBACK else finalText,
            some toolResults⟩],
        isLoading := false }
  | .failed =>
    if requestTime < s.lastClearTimestamp then s
    else
      { s with messages := s.messages ++ [⟨"model", TURN_ERROR_TEXT, none⟩],
               isLoading := false }

/-- C1: if a clear at time `tClear` happens after a turn was submitted (at
`requestTime < tClear`) but before the model response arrives, then whatever
the superseded turn eventually produces — plain text, tool results, or an
error — nothing is appended: the transcript still contains exactly the reset
initial greeting. -/
theorem clear_discards_late_response {α : Type} (s0 : ChatState α)
    (tClear requestTime : Nat) (outcome : TurnOutcome α)
    (h : requestTime < tClear) :
    (resumeTurn requestTime outcome
        (handleClear tClear (handleSubmitStart s0))).messages = [initialMessage] := by
  cases outcome <;> simp [resumeTurn, handleClear, h]

/-- Witness for C1: a turn submitted at time 3, cleared at time 5, whose
response arrives late. -/
theorem clear_discards_late_response_witness :
    (resumeTurn 3 (TurnOutcome.noTools "late reply")
        (handleClear 5 (handleSubmitStart
          (⟨[initialMessage], "halo", false, 0⟩ : ChatState Unit)))).messages =
      [initialMessage] :=
  clear_discards_late_response (⟨[initialMessage], "halo", false, 0⟩ : ChatState Unit)
    5 3 (TurnOutcome.noTools "late reply") (by decide)
